import Mathlib

/-!
Verification of the yoghurt-backend order service (src/app.py).

The file shallowly embeds the order lifecycle routes (`create_order`,
`update_order`, `upload_payment_proof`), the email helpers
(`send_customer_email`, `send_admin_email`, `send_order_email`) and the
code generators (`generate_order_code`, `generate_payment_code`) of the
Flask application, and proves the spec claims about them.

Modelling conventions, stated once:
* Request bodies are the parsed JSON object, modelled as an association
  list `List (String × Json)`; the empty list stands for any falsy body
  (Python `if not data`).  Non-object bodies are handled by the framework
  boundary and are outside the claims.
* Python `float(x)` / `int(x)` conversions are embedded as `pyFloat` /
  `pyInt` over `Json`, with `Rat` standing for JSON numbers.  The string
  parsers cover the ASCII Python number grammar with underscore
  grouping, fraction and exponent; non-finite spellings (inf, nan) are
  not representable in the rational model and non-ASCII digits and
  whitespace are not modelled — all are treated as rejected.
* The database session is modelled by a `Store` value threaded through
  each route; a route that returns early without `db.session.commit()`
  leaves the store unchanged (SQLAlchemy discards uncommitted session
  state at request teardown, and the except-branches call rollback).
* Randomness (`random.choices`) and the current date/time are passed in
  as explicit arguments: the generators receive the stream of drawn
  candidate strings, the upload route receives the timestamp string.
* Outbound I/O (SMTP sends, HTTP calls to the delegated email service)
  is modelled by outcome oracles passed to the route, and by an `Event`
  log recording each attempted outbound call.
* `werkzeug.secure_filename` is an external sanitiser whose output is
  irrelevant to every claim; it is modelled as the identity on the
  uploaded filename.
* Timestamps `created_at` / `updated_at` and the rendered email bodies
  (pure string composition, lines 186-332 and 353-504 of app.py) are
  not modelled; no claim mentions them beyond the recipient lists and
  the returned boolean flags, which are modelled exactly.
-/

namespace Yoghurt

/-- JSON values as delivered by `request.get_json()`.  JSON numbers are
modelled as rationals. -/
inductive Json where
  | null : Json
  | bool (b : Bool) : Json
  | num (q : Rat) : Json
  | str (s : String) : Json
  | arr (elems : List Json) : Json
  | obj (fields : List (String × Json)) : Json

/-- Dictionary key lookup, `data[k]` / `k in data` on a parsed JSON
object. -/
def lookupField : List (String × Json) → String → Option Json
  | [], _ => none
  | (k, v) :: rest, key => if k = key then some v else lookupField rest key

/-- Truthiness of an optional configuration string: `os.getenv` returns
`None` when unset, and Python treats both `None` and the empty string as
falsy. -/
def optStrTruthy : Option String → Bool
  | none => false
  | some s => !(s = "")

def isDigitChar (c : Char) : Bool := '0' ≤ c && c ≤ '9'

def digitVal (c : Char) : Nat := c.toNat - '0'.toNat

def natOfDigits (cs : List Char) : Nat := cs.foldl (fun a c => a * 10 + digitVal c) 0

/-- One digit run of the Python number grammar: decimal digits with
single underscores strictly between digits.  The flag records whether
the previous character was a digit, i.e. whether an underscore is
currently legal. -/
def digitsURun : List Char → Bool → Bool
  | [], prevWasDigit => prevWasDigit
  | c :: rest, prevWasDigit =>
      if isDigitChar c then digitsURun rest true
      else if c = '_' then
        if prevWasDigit then digitsURun rest false else false
      else false

/-- A non-empty underscore-grouped digit run. -/
def validDigitsU (cs : List Char) : Bool := !cs.isEmpty && digitsURun cs false

def stripUnderscores (cs : List Char) : List Char := cs.filter (fun c => !(c = '_'))

def natOfDigitsU (cs : List Char) : Nat := natOfDigits (stripUnderscores cs)

/-- Split at the first exponent marker e or E. -/
def splitAtExp : List Char → List Char × Option (List Char)
  | [] => ([], none)
  | c :: rest =>
      if c = 'e' || c = 'E' then ([], some rest)
      else
        let p := splitAtExp rest
        (c :: p.1, p.2)

/-- Split at the first dot. -/
def splitAtDot : List Char → List Char × Option (List Char)
  | [] => ([], none)
  | c :: rest =>
      if c = '.' then ([], some rest)
      else
        let p := splitAtDot rest
        (c :: p.1, p.2)

/-- Mantissa of the Python float string grammar: digits, digits dot,
dot digits, or digits dot digits, each side an underscore-grouped
digit run. -/
def parseMantissa (cs : List Char) : Option Rat :=
  let p := splitAtDot cs
  match p.2 with
  | none => if validDigitsU p.1 then some ((natOfDigitsU p.1 : Nat) : Rat) else none
  | some fp =>
      if (p.1.isEmpty || validDigitsU p.1) && (fp.isEmpty || validDigitsU fp)
          && !(p.1.isEmpty && fp.isEmpty) then
        some (((natOfDigitsU p.1 : Nat) : Rat)
          + ((natOfDigitsU fp : Nat) : Rat) / ((10 : Rat) ^ (stripUnderscores fp).length))
      else none

/-- Optionally signed exponent digits. -/
def parseExpPart (cs : List Char) : Option Int :=
  match cs with
  | '+' :: rest => if validDigitsU rest then some ((natOfDigitsU rest : Nat) : Int) else none
  | '-' :: rest => if validDigitsU rest then some (-((natOfDigitsU rest : Nat) : Int)) else none
  | _ => if validDigitsU cs then some ((natOfDigitsU cs : Nat) : Int) else none

/-- Unsigned part of the Python float string grammar: a mantissa with
an optional exponent.  The non-finite spellings inf, infinity and nan
are not representable in the rational model and are treated as
rejected; no claim exercises a non-finite amount. -/
def parseUnsignedFloat (cs : List Char) : Option Rat :=
  let p := splitAtExp cs
  match p.2 with
  | none => parseMantissa p.1
  | some ecs =>
      match parseMantissa p.1, parseExpPart ecs with
      | some m, some e => some (m * (10 : Rat) ^ e)
      | some _, none => none
      | none, _ => none

def parseSignedFloat (cs : List Char) : Option Rat :=
  match cs with
  | '+' :: rest => parseUnsignedFloat rest
  | '-' :: rest => (parseUnsignedFloat rest).map Neg.neg
  | _ => parseUnsignedFloat cs

/-- Python `float(x)` on a JSON value: numbers pass through, booleans
coerce, numeric strings parse (ASCII decimal digits with underscore
grouping, fraction and exponent; non-finite spellings are outside the
rational model, and non-ASCII digits and non-ASCII whitespace are not
modelled), everything else raises (`none`). -/
def pyFloat : Json → Option Rat
  | .num q => some q
  | .bool b => some (if b then 1 else 0)
  | .str s => parseSignedFloat s.trim.data
  | _ => none

/-- Truncation toward zero, the behaviour of Python `int` on a float. -/
def ratTruncate (q : Rat) : Int := if q < 0 then -((-q).floor) else q.floor

def parseSignedInt (cs : List Char) : Option Int :=
  match cs with
  | '+' :: rest => if validDigitsU rest then some ((natOfDigitsU rest : Nat) : Int) else none
  | '-' :: rest => if validDigitsU rest then some (-((natOfDigitsU rest : Nat) : Int)) else none
  | _ => if validDigitsU cs then some ((natOfDigitsU cs : Nat) : Int) else none

/-- Python `int(x)` on a JSON value: numbers truncate, booleans coerce,
integer strings (ASCII decimal digits with underscore grouping) parse,
everything else raises (`none`). -/
def pyInt : Json → Option Int
  | .num q => some (ratTruncate q)
  | .bool b => some (if b then 1 else 0)
  | .str s => parseSignedInt s.trim.data
  | _ => none

/-- The `OrderItem` model (app.py lines 94-110): converted values as
stored by `float(item[amount-key])` and `int(item[quantity-key])`.  The
`order_id` foreign key is represented by ownership: items live in the
`items` list of their parent order. -/
structure OrderItem where
  name : Json
  amount : Rat
  quantity : Int

/-- The `Order` model (app.py lines 54-91).  Contact and address fields
hold the JSON values the routes assign verbatim from the request body;
`order_status` is the stored status string. -/
structure Order where
  id : Nat
  name : Json
  email : Json
  phone_number : Json
  street : Json
  city : Json
  state : Json
  country : Json
  reference_code : String
  payment_code : String
  order_status : String
  proof_of_payment : Option String
  items : List OrderItem

/-- The persistent store: committed orders plus the autoincrement
counter for primary keys. -/
structure Store where
  orders : List Order
  nextId : Nat

def Store.empty : Store := ⟨[], 1⟩

/-- `db.session.get(Order, order_id)`. -/
def Store.getOrder (s : Store) (oid : Nat) : Option Order :=
  s.orders.find? (fun o => o.id = oid)

/-- Committing a mutated ORM object: the row with the same primary key
is replaced. -/
def Store.putOrder (s : Store) (o : Order) : Store :=
  ⟨s.orders.map (fun x => if x.id = o.id then o else x), s.nextId⟩

/-- The status string a fresh order is created with (app.py line 573). -/
def pendingStatus : String := "pending"

/-- The status string `upload_payment_proof` writes on success (app.py
line 713); the spec names this state `finalized`. -/
def finalizedStatus : String := "successful"

/-- Relevant configuration surface of the app (app.py lines 28-40),
each `os.getenv`-backed value as an optional string. -/
structure Config where
  email_service_outsourced : Bool
  email_service_backend_url : Option String
  mail_username : Option String
  mail_password : Option String
  admin_email : Option String
deriving DecidableEq

/-- Delegated mode is selected when the outsourced flag is on and a
backend URL is configured (app.py lines 681, 726). -/
def delegatedConfigured (cfg : Config) : Bool :=
  cfg.email_service_outsourced && optStrTruthy cfg.email_service_backend_url

/-- Local mail mode requires both credentials (app.py line 771). -/
def localConfigured (cfg : Config) : Bool :=
  optStrTruthy cfg.mail_username && optStrTruthy cfg.mail_password

/-- The three dispatch modes of the upload route, as predicates on the
configuration alone (app.py lines 726, 771, 776). -/
def delegatedMode (cfg : Config) : Bool := delegatedConfigured cfg

def localMode (cfg : Config) : Bool :=
  !delegatedConfigured cfg && localConfigured cfg

def unconfiguredMode (cfg : Config) : Bool :=
  !delegatedConfigured cfg && !localConfigured cfg

def isUpperAlnumChar (c : Char) : Bool :=
  ('A' ≤ c && c ≤ 'Z') || ('0' ≤ c && c ≤ '9')

/-- The decimal digit character for a value below ten. -/
def digitChar : Nat → Char
  | 0 => '0' | 1 => '1' | 2 => '2' | 3 => '3' | 4 => '4'
  | 5 => '5' | 6 => '6' | 7 => '7' | 8 => '8' | _ => '9'

/-- Two zero-padded decimal digits, the `strftime` fields `%m` / `%d`
for their in-range values. -/
def pad2 (n : Nat) : String := String.mk [digitChar (n / 10 % 10), digitChar (n % 10)]

/-- Four zero-padded decimal digits, the `strftime` field `%Y` for
years up to 9999. -/
def pad4 (n : Nat) : String :=
  String.mk [digitChar (n / 1000 % 10), digitChar (n / 100 % 10),
    digitChar (n / 10 % 10), digitChar (n % 10)]

/-- `datetime.now().strftime(percent-Y percent-m percent-d)`. -/
def formatYYYYMMDD (y m d : Nat) : String := pad4 y ++ pad2 m ++ pad2 d

/-- `Order.query.filter_by(reference_code=code).first()` is truthy. -/
def referenceCodeExists (s : Store) (code : String) : Bool :=
  s.orders.any (fun o => o.reference_code = code)

/-- `Order.query.filter_by(payment_code=code).first()` is truthy. -/
def paymentCodeExists (s : Store) (code : String) : Bool :=
  s.orders.any (fun o => o.payment_code = code)

/-- `generate_order_code` (app.py lines 117-127).  `today` is the
formatted current date, `draws` the stream of 4-character suffixes
produced by `random.choices`; the loop retries until a candidate is not
in the store.  `none` means the modelled finite stream of draws was
exhausted (the Python loop would keep drawing). -/
def generate_order_code (s : Store) (today : String) : List String → Option String
  | [] => none
  | suffix :: rest =>
      let code := "ORD-" ++ today ++ "-" ++ suffix
      if referenceCodeExists s code then generate_order_code s today rest
      else some code

/-- `generate_payment_code` (app.py lines 130-138). -/
def generate_payment_code (s : Store) : List String → Option String
  | [] => none
  | cand :: rest =>
      if paymentCodeExists s cand then generate_payment_code s rest
      else some cand

/-- `ALLOWED_EXTENSIONS` (app.py line 43). -/
def ALLOWED_EXTENSIONS : List String := ["png", "jpg", "jpeg", "gif", "pdf"]

/-- The characters after the last dot, `none` when there is no dot:
combined, the `"." in filename` test and `filename.rsplit(".", 1)[1]`. -/
def extensionAfterLastDot : List Char → Option (List Char)
  | [] => none
  | c :: rest =>
      match extensionAfterLastDot rest with
      | some e => some e
      | none => if c = '.' then some rest else none

/-- `allowed_file` (app.py lines 113-114): the filename must contain a
dot and the lowercased part after the last dot must be an allowed
extension. -/
def allowed_file (filename : String) : Bool :=
  match extensionAfterLastDot filename.data with
  | none => false
  | some ext => ALLOWED_EXTENSIONS.contains (String.mk (ext.map Char.toLower))

/-- Error responses produced by the routes, by HTTP status: 400
(`badRequest`, the ValidationError class of the spec), 403 (`forbidden`,
the InvalidState class of the spec) and 404 (`notFound`). -/
inductive ApiError where
  | badRequest (msg : String) : ApiError
  | forbidden (msg : String) : ApiError
  | notFound (msg : String) : ApiError
deriving DecidableEq

/-- Outbound side effects a request attempts, in order. -/
inductive Event where
  | healthPing (url : String) : Event
  | mailSendAttempt (recipients : List Json) : Event
  | delegatedPost (url : String) : Event

/-- The fire-and-forget `ping_email_service_async` call each route makes
when delegated mode is configured (app.py lines 527-528, 608-609,
681-682). -/
def pingEvents (cfg : Config) : List Event :=
  if delegatedConfigured cfg then
    [Event.healthPing (cfg.email_service_backend_url.getD "")]
  else []

def itemErrObject (idx : Nat) : String :=
  "Item at index " ++ toString idx ++ " must be an object"

def itemErrMissing (idx : Nat) : String :=
  "Item at index " ++ toString idx ++ " missing required fields (name, amount, quantity)"

def itemErrInvalid (idx : Nat) : String :=
  "Item at index " ++ toString idx ++ " has invalid amount or quantity"

/-- Per-item validation and conversion, the body of the item loops in
`create_order` (app.py lines 547-556, 580-587) and `update_order`
(lines 638-647, 652-659): the item must be a dict, carry the three
keys, and its amount/quantity must survive `float()` / `int()`. -/
def itemCheck (idx : Nat) (j : Json) : Except String OrderItem :=
  match j with
  | .obj fields =>
      if ((lookupField fields "name").isNone || (lookupField fields "amount").isNone
          || (lookupField fields "quantity").isNone) then
        .error (itemErrMissing idx)
      else
        match pyFloat ((lookupField fields "amount").getD .null),
              pyInt ((lookupField fields "quantity").getD .null) with
        | some a, some q => .ok ⟨(lookupField fields "name").getD .null, a, q⟩
        | some _, none => .error (itemErrInvalid idx)
        | none, _ => .error (itemErrInvalid idx)
  | _ => .error (itemErrObject idx)

/-- Validation of a whole items list, reporting the first offending
index.  The source validates every item first and converts in a second
loop; since `itemCheck` is pure the fused form returns the same error
and the same converted list. -/
def checkItems : Nat → List Json → Except String (List OrderItem)
  | _, [] => .ok []
  | idx, j :: rest =>
      match itemCheck idx j with
      | .error e => .error e
      | .ok it =>
          match checkItems (idx + 1) rest with
          | .error e => .error e
          | .ok its => .ok (it :: its)

/-- Whether a single item passes the checks of `itemCheck` (the index
only influences the error message). -/
def itemOk (j : Json) : Bool := (itemCheck 0 j).toOption.isSome

/-- The error message `itemCheck` produces at a given index (empty
string when the item is valid). -/
def itemErrText (idx : Nat) (j : Json) : String :=
  match itemCheck idx j with
  | .error e => e
  | .ok _ => ""

/-- The first invalid item of a list together with its index, starting
the numbering at the given offset. -/
def firstBadItem : Nat → List Json → Option (Nat × Json)
  | _, [] => none
  | idx, j :: rest => if itemOk j then firstBadItem (idx + 1) rest else some (idx, j)

/-- `required_fields` of `create_order` (app.py line 536). -/
def required_fields : List String :=
  ["name", "email", "phone_number", "street", "city", "state", "country", "items"]

/-- The first field of `required_fields` missing from the body, the one
the loop at app.py lines 537-539 reports. -/
def firstMissingField (data : List (String × Json)) : Option String :=
  required_fields.find? (fun f => (lookupField data f).isNone)

/-- The order row `create_order` builds at app.py lines 563-574, with
the converted items attached. -/
def createdOrder (s : Store) (reference_code payment_code : String)
    (data : List (String × Json)) (items : List OrderItem) : Order :=
  { id := s.nextId
    name := (lookupField data "name").getD .null
    email := (lookupField data "email").getD .null
    phone_number := (lookupField data "phone_number").getD .null
    street := (lookupField data "street").getD .null
    city := (lookupField data "city").getD .null
    state := (lookupField data "state").getD .null
    country := (lookupField data "country").getD .null
    reference_code := reference_code
    payment_code := payment_code
    order_status := pendingStatus
    proof_of_payment := none
    items := items }

/-- The rejection condition of the create route, flattened: a falsy
body, a missing required key, an items value that is not a non-empty
list, or some invalid item.  Stated separately from the route so the
claim theorem can assert that create fails exactly on this set of
inputs. -/
def createRejectedInput (data : List (String × Json)) : Bool :=
  data.isEmpty ||
  (firstMissingField data).isSome ||
  (match (lookupField data "items").getD .null with
   | .arr itemsData => itemsData.isEmpty || (firstBadItem 0 itemsData).isSome
   | _ => true)

/-- `create_order` route (app.py lines 517-598).  The generated codes
are passed in (in the source they come from `generate_order_code` and
`generate_payment_code`, called only after validation succeeds; the
parameterisation does not change any observable of the route). -/
def create_order (cfg : Config) (s : Store) (reference_code payment_code : String)
    (data : List (String × Json)) :
    Except ApiError Order × Store × List Event :=
  let events := pingEvents cfg
  if data.isEmpty then (.error (.badRequest "Request must be JSON"), s, events)
  else
    match firstMissingField data with
    | some f => (.error (.badRequest ("Missing required field: " ++ f)), s, events)
    | none =>
        match (lookupField data "items").getD .null with
        | .arr itemsData =>
            if itemsData.isEmpty then
              (.error (.badRequest "Items must be a non-empty array"), s, events)
            else
              match checkItems 0 itemsData with
              | .error msg => (.error (.badRequest msg), s, events)
              | .ok items =>
                  let order : Order := createdOrder s reference_code payment_code data items
                  (.ok order, ⟨s.orders ++ [order], s.nextId + 1⟩, events)
        | _ => (.error (.badRequest "Items must be a non-empty array"), s, events)

/-- `updateable_fields` of `update_order` (app.py line 626). -/
def updateable_fields : List String :=
  ["name", "email", "phone_number", "street", "city", "state", "country"]

/-- `setattr(order, field, data[field])` for one updateable field. -/
def applyField (o : Order) (f : String) (v : Json) : Order :=
  if f = "name" then { o with name := v }
  else if f = "email" then { o with email := v }
  else if f = "phone_number" then { o with phone_number := v }
  else if f = "street" then { o with street := v }
  else if f = "city" then { o with city := v }
  else if f = "state" then { o with state := v }
  else if f = "country" then { o with country := v }
  else o

/-- The field-update loop of `update_order` (app.py lines 626-629). -/
def applyFields (o : Order) (data : List (String × Json)) : Order :=
  updateable_fields.foldl
    (fun acc f =>
      match lookupField data f with
      | some v => applyField acc f v
      | none => acc) o

/-- `update_order` route (app.py lines 601-670).  Early returns leave
the store untouched: the session is only committed at line 661, and
uncommitted attribute changes are discarded at request teardown. -/
def update_order (cfg : Config) (s : Store) (order_id : Nat)
    (data : List (String × Json)) :
    Except ApiError Order × Store × List Event :=
  let events := pingEvents cfg
  match s.getOrder order_id with
  | none => (.error (.notFound "Order not found"), s, events)
  | some order =>
      if order.order_status = pendingStatus then
        if data.isEmpty then (.error (.badRequest "Request must be JSON"), s, events)
        else
          let order1 := applyFields order data
          match lookupField data "items" with
          | none => (.ok order1, s.putOrder order1, events)
          | some itemsJson =>
              match itemsJson with
              | .arr itemsData =>
                  if itemsData.isEmpty then
                    (.error (.badRequest "Items must be a non-empty array"), s, events)
                  else
                    match checkItems 0 itemsData with
                    | .error msg => (.error (.badRequest msg), s, events)
                    | .ok newItems =>
                        let order2 := { order1 with items := newItems }
                        (.ok order2, s.putOrder order2, events)
              | _ => (.error (.badRequest "Items must be a non-empty array"), s, events)
      else
        (.error (.forbidden "Order cannot be updated after proof of payment has been submitted"),
          s, events)

/-- Result of one `mail.send` attempt inside the try of the email
helpers: either the message was handed to SMTP, or some step of the
try-body raised. -/
inductive MailOutcome where
  | sent : MailOutcome
  | failed : MailOutcome
deriving DecidableEq

/-- `send_customer_email` (app.py lines 183-342): composes a message to
`[order_data[email-key]]` and attempts the send, returning `True` on
success and `False` when anything in the try-body raised (the function
catches every exception).  Body composition is pure string work and is
not modelled. -/
def send_customer_email (outcome : MailOutcome) (recipient : Json) : Bool × List Event :=
  match outcome with
  | .sent => (true, [Event.mailSendAttempt [recipient]])
  | .failed => (false, [Event.mailSendAttempt [recipient]])

/-- The hard-coded extra admin recipient (app.py line 375). -/
def ADMIN_EXTRA_RECIPIENT : String := "scarsjason@gmail.com"

/-- `send_admin_email` (app.py lines 345-514): returns `False` with no
send attempt when `ADMIN_EMAIL` is falsy (lines 348-351); otherwise the
message is addressed to the configured admin address plus the
hard-coded extra recipient (line 375) and the send is attempted. -/
def send_admin_email (cfg : Config) (outcome : MailOutcome) : Bool × List Event :=
  if optStrTruthy cfg.admin_email then
    match outcome with
    | .sent =>
        (true, [Event.mailSendAttempt
          [.str (cfg.admin_email.getD ""), .str ADMIN_EXTRA_RECIPIENT]])
    | .failed =>
        (false, [Event.mailSendAttempt
          [.str (cfg.admin_email.getD ""), .str ADMIN_EXTRA_RECIPIENT]])
  else (false, [])

/-- Outcome of the `requests.post` to the delegated email service:
either the call raised (connection error, timeout), or a response
arrived with a status code and a body (`none` when `response.json()`
would raise). -/
inductive DelegatedOutcome where
  | transportError : DelegatedOutcome
  | response (status : Nat) (body : Option Json) : DelegatedOutcome

/-- The chained `result.get("emails_sent", {}).get(..., False)` reads
(app.py lines 765-766): `none` models the AttributeError raised when
the body or its `emails_sent` member is not a dict; otherwise the two
values with their Python defaults. -/
def parseEmailFlags (body : Json) : Option (Json × Json) :=
  match body with
  | .obj fields =>
      match (lookupField fields "emails_sent").getD (.obj []) with
      | .obj inner =>
          some ((lookupField inner "customer").getD (.bool false),
            (lookupField inner "admin").getD (.bool false))
      | _ => none
  | _ => none

/-- All three notification outcome oracles a finalize call may consume. -/
structure NotifyOracles where
  delegated : DelegatedOutcome
  customer : MailOutcome
  admin : MailOutcome

/-- The post-commit email block of `upload_payment_proof` (app.py lines
717-780): delegated mode posts once to the backend and believes the
response flags only on HTTP 200; local mode attempts the two sends
independently; with neither configured nothing is sent.  Every failure
path leaves the flags at their initialised `False`.  The returned flags
are the raw values the Python variables end up holding (JSON values in
delegated mode, booleans otherwise). -/
def notifyDispatch (cfg : Config) (order : Order) (oracles : NotifyOracles) :
    Json × Json × List Event :=
  if delegatedConfigured cfg then
    let ev := [Event.delegatedPost (cfg.email_service_backend_url.getD "" ++ "/send-order-email")]
    match oracles.delegated with
    | .transportError => (.bool false, .bool false, ev)
    | .response status body =>
        if status = 200 then
          match body with
          | none => (.bool false, .bool false, ev)
          | some b =>
              match parseEmailFlags b with
              | none => (.bool false, .bool false, ev)
              | some (c, a) => (c, a, ev)
        else (.bool false, .bool false, ev)
  else if localConfigured cfg then
    let cRes := send_customer_email oracles.customer order.email
    let aRes := send_admin_email cfg oracles.admin
    (.bool cRes.1, .bool aRes.1, cRes.2 ++ aRes.2)
  else (.bool false, .bool false, [])

/-- `upload_payment_proof` route (app.py lines 673-793), the finalize
operation.  `fileField` is the `proof_of_payment` entry of
`request.files` (`none` when absent), `timestamp` the formatted
`datetime.now()`; `secure_filename` is modelled as the identity.  The
file-type error message is abbreviated (the source appends the joined
extension set). -/
def upload_payment_proof (cfg : Config) (s : Store) (order_id : Nat)
    (fileField : Option String) (timestamp : String) (oracles : NotifyOracles) :
    Except ApiError (Order × Json × Json) × Store × List Event :=
  let ev0 := pingEvents cfg
  match s.getOrder order_id with
  | none => (.error (.notFound "Order not found"), s, ev0)
  | some order =>
      if order.order_status = pendingStatus then
        match fileField with
        | none => (.error (.badRequest "Missing proof of payment file"), s, ev0)
        | some filename =>
            if filename = "" then (.error (.badRequest "No file selected"), s, ev0)
            else if allowed_file filename then
              let unique_filename := timestamp ++ "_" ++ filename
              let order1 := { order with
                proof_of_payment := some unique_filename
                order_status := finalizedStatus }
              let s1 := s.putOrder order1
              let res := notifyDispatch cfg order1 oracles
              (.ok (order1, res.1, res.2.1), s1, ev0 ++ res.2.2)
            else (.error (.badRequest "Invalid file type"), s, ev0)
      else
        (.error (.forbidden "Proof of payment has already been submitted for this order"),
          s, ev0)

/-- The `emails_sent` response body of the `/send-order-email` endpoint
(the `message` / `errors` companions are elided; the caller only reads
`emails_sent`). -/
def emailsSentBody (c a : Bool) : Json :=
  .obj [("emails_sent", .obj [("customer", .bool c), ("admin", .bool a)])]

/-- The `/send-order-email` endpoint after its input validation
(app.py lines 832-890): flag defaults, configuration check, the two
guarded sends, and the 500 / 207 / 200 status classification for
all-failed / partial / full success. -/
def send_order_email_core (cfg : Config) (customerOutcome adminOutcome : MailOutcome)
    (send_customer send_admin : Bool) (recipient : Json) : Nat × Json :=
  if !send_customer && !send_admin then
    (400, .obj [("error", .str "At least one of send_customer or send_admin must be true")])
  else if !(localConfigured cfg) then
    (500, .obj [("error", .str "Email configuration not complete")])
  else
    let c := if send_customer then (send_customer_email customerOutcome recipient).1 else false
    let a := if send_admin then (send_admin_email cfg adminOutcome).1 else false
    let someErrors := (send_customer && !c) || (send_admin && !a)
    if someErrors && !(c || a) then (500, emailsSentBody c a)
    else if someErrors then (207, emailsSentBody c a)
    else (200, emailsSentBody c a)

/-- Stores reachable from the empty database by any sequence of the
three lifecycle routes with arbitrary inputs, configurations and
notification outcomes. -/
inductive Reachable : Store → Prop where
  | empty : Reachable Store.empty
  | createStep (cfg : Config) (s : Store) (rc pc : String)
      (data : List (String × Json)) :
      Reachable s → Reachable (create_order cfg s rc pc data).2.1
  | updateStep (cfg : Config) (s : Store) (oid : Nat)
      (data : List (String × Json)) :
      Reachable s → Reachable (update_order cfg s oid data).2.1
  | finalizeStep (cfg : Config) (s : Store) (oid : Nat) (ff : Option String)
      (ts : String) (orc : NotifyOracles) :
      Reachable s → Reachable (upload_payment_proof cfg s oid ff ts orc).2.1

/-- The two-way invariant of claim C8: a stored order carries a proof
of payment exactly when it is in the finalized state. -/
def proofStatusInv (s : Store) : Prop :=
  ∀ o ∈ s.orders, (o.proof_of_payment ≠ none ↔ o.order_status = finalizedStatus)

/-- A configuration with no email path set up. -/
def cfgOff : Config := ⟨false, none, none, none, none⟩

/-- A configuration selecting delegated mode. -/
def cfgDelegated : Config := ⟨true, some "http://mail.example", none, none, none⟩

/-- A configuration selecting local mode with an admin address. -/
def cfgLocal : Config :=
  ⟨false, none, some "user", some "pass", some "admin@example.com"⟩

/-- A local-mode configuration with `ADMIN_EMAIL` unset. -/
def cfgLocalNoAdmin : Config := ⟨false, none, some "user", some "pass", none⟩

/-- A fixed oracle bundle for witnesses. -/
def sampleOracles : NotifyOracles := ⟨.transportError, .sent, .sent⟩

def sampleItem : OrderItem := ⟨.str "Book", 12, 1⟩

/-- A committed pending order used by the witnesses. -/
def sampleOrder : Order :=
  ⟨1, .str "Ada", .str "a@b.com", .str "555-0100", .str "1 Road", .str "Lagos",
    .str "Lagos", .str "NG", "ORD-20260101-AAAA", "AAAAAA", pendingStatus, none,
    [sampleItem]⟩

/-- A committed finalized order used by the witnesses. -/
def finalizedOrder : Order :=
  { sampleOrder with
    id := 2
    reference_code := "ORD-20260101-BBBB"
    payment_code := "BBBBBB"
    order_status := finalizedStatus
    proof_of_payment := some "t_p.png" }

def sampleStore : Store := ⟨[sampleOrder], 2⟩

def twoOrderStore : Store := ⟨[sampleOrder, finalizedOrder], 3⟩

/-- An item with a negative amount and zero quantity. -/
def badItemJson : Json :=
  .obj [("name", .str "Yoghurt"), ("amount", .num (-5)), ("quantity", .num 0)]

/-- A create body whose contact fields are all empty strings and whose
sole item has a negative amount and a non-positive quantity. -/
def badCreateData : List (String × Json) :=
  [("name", .str ""), ("email", .str ""), ("phone_number", .str ""),
   ("street", .str ""), ("city", .str ""), ("state", .str ""),
   ("country", .str ""), ("items", .arr [badItemJson])]

/-- The order `create_order` persists for `badCreateData`. -/
def badOrder : Order :=
  ⟨1, .str "", .str "", .str "", .str "", .str "", .str "", .str "",
    "R1", "P1", pendingStatus, none, [⟨.str "Yoghurt", -5, 0⟩]⟩

/-- An item object missing its quantity key. -/
def missingQtyItem : Json := .obj [("name", .str "Milk"), ("amount", .num 3)]

/-- A fully valid item object. -/
def okItemJson : Json :=
  .obj [("name", .str "Milk"), ("amount", .num 3), ("quantity", .num 2)]

/-- A create body with every required field present whose second item
is invalid. -/
def mixedItemsData : List (String × Json) :=
  [("name", .str "Ada"), ("email", .str "a@b.c"), ("phone_number", .str "1"),
   ("street", .str "s"), ("city", .str "c"), ("state", .str "st"),
   ("country", .str "n"), ("items", .arr [okItemJson, missingQtyItem])]

/-- An update body whose items list has an invalid item at index 1. -/
def updBadData : List (String × Json) :=
  [("name", .str "New Name"), ("items", .arr [okItemJson, missingQtyItem])]

/-- The order a successful finalize writes back: the original order
with the saved filename recorded and the status advanced. -/
def finalizeOrderOf (ord : Order) (f ts : String) : Order :=
  { ord with
    proof_of_payment := some (ts ++ "_" ++ f)
    order_status := finalizedStatus }

/-- The delegated-call outcomes the upload route treats as failures:
a raised transport call, a non-200 status, an unparseable body, or a
body whose flags cannot be read. -/
def delegatedFailed : DelegatedOutcome → Bool
  | .transportError => true
  | .response status body =>
      !(status = 200) ||
        (match body with
         | none => true
         | some b => (parseEmailFlags b).isNone)

theorem applyField_proof_of_payment (o : Order) (f : String) (v : Json) :
    (applyField o f v).proof_of_payment = o.proof_of_payment := by
  unfold applyField
  split_ifs <;> rfl

theorem applyField_order_status (o : Order) (f : String) (v : Json) :
    (applyField o f v).order_status = o.order_status := by
  unfold applyField
  split_ifs <;> rfl

theorem applyField_id (o : Order) (f : String) (v : Json) :
    (applyField o f v).id = o.id := by
  unfold applyField
  split_ifs <;> rfl

theorem foldl_applyField_fixed (l : List String) (o : Order)
    (data : List (String × Json)) :
    (l.foldl
      (fun acc f =>
        match lookupField data f with
        | some v => applyField acc f v
        | none => acc) o).proof_of_payment = o.proof_of_payment ∧
    (l.foldl
      (fun acc f =>
        match lookupField data f with
        | some v => applyField acc f v
        | none => acc) o).order_status = o.order_status ∧
    (l.foldl
      (fun acc f =>
        match lookupField data f with
        | some v => applyField acc f v
        | none => acc) o).id = o.id := by
  induction l generalizing o with
  | nil => exact ⟨rfl, rfl, rfl⟩
  | cons f fs ih =>
      simp only [List.foldl_cons]
      cases h : lookupField data f with
      | none =>
          simpa [h] using ih o
      | some v =>
          simp only [h]
          refine ⟨?_, ?_, ?_⟩
          · rw [(ih (applyField o f v)).1, applyField_proof_of_payment]
          · rw [(ih (applyField o f v)).2.1, applyField_order_status]
          · rw [(ih (applyField o f v)).2.2, applyField_id]

theorem applyFields_proof_of_payment (o : Order) (data : List (String × Json)) :
    (applyFields o data).proof_of_payment = o.proof_of_payment :=
  (foldl_applyField_fixed updateable_fields o data).1

theorem applyFields_order_status (o : Order) (data : List (String × Json)) :
    (applyFields o data).order_status = o.order_status :=
  (foldl_applyField_fixed updateable_fields o data).2.1

theorem applyFields_id (o : Order) (data : List (String × Json)) :
    (applyFields o data).id = o.id :=
  (foldl_applyField_fixed updateable_fields o data).2.2

theorem find?_map_replace (l : List Order) (oid : Nat) (ord o2 : Order)
    (h : l.find? (fun o => o.id = oid) = some ord) (hid : o2.id = ord.id) :
    (l.map (fun x => if x.id = o2.id then o2 else x)).find?
      (fun o => o.id = oid) = some o2 := by
  have hord : ord.id = oid := by
    have := List.find?_some h
    simpa using this
  induction l with
  | nil => simp at h
  | cons x xs ih =>
      simp only [List.map_cons]
      by_cases hx : x.id = oid
      · have hxord : x = ord := by
          rw [List.find?_cons_of_pos _ (by simp [hx])] at h
          exact Option.some.inj h
        have hxo2 : x.id = o2.id := by rw [hid, ← hxord]
        rw [if_pos hxo2]
        exact List.find?_cons_of_pos _ (by simp [hid, hord])
      · have h2 := h
        rw [List.find?_cons_of_neg _ (by simp [hx])] at h2
        have hxne : ¬(x.id = o2.id) := by rw [hid, hord]; exact hx
        rw [if_neg hxne]
        rw [List.find?_cons_of_neg _ (by simp [hx])]
        exact ih h2

/-- Committing a mutated order keeps it retrievable under its id. -/
theorem getOrder_putOrder (s : Store) (oid : Nat) (ord o2 : Order)
    (h : s.getOrder oid = some ord) (hid : o2.id = ord.id) :
    (s.putOrder o2).getOrder oid = some o2 :=
  find?_map_replace s.orders oid ord o2 h hid

/-- Every order stored after a create was already stored or is the
fresh pending order without a proof of payment. -/
theorem create_store_mem (cfg : Config) (s : Store) (rc pc : String)
    (data : List (String × Json)) :
    ∀ o ∈ (create_order cfg s rc pc data).2.1.orders,
      o ∈ s.orders ∨ (o.proof_of_payment = none ∧ o.order_status = pendingStatus) := by
  intro o ho
  simp only [create_order] at ho
  repeat' split at ho
  all_goals
    first
      | exact Or.inl ho
      | (simp only [List.mem_append, List.mem_singleton] at ho
         rcases ho with ho | ho
         · exact Or.inl ho
         · subst ho; exact Or.inr ⟨rfl, rfl⟩)

/-- Every order stored after an update has the proof of payment and
status of some previously stored order. -/
theorem update_store_mem (cfg : Config) (s : Store) (oid : Nat)
    (data : List (String × Json)) :
    ∀ o ∈ (update_order cfg s oid data).2.1.orders,
      ∃ o0 ∈ s.orders,
        o.proof_of_payment = o0.proof_of_payment ∧ o.order_status = o0.order_status := by
  intro o ho
  simp only [update_order] at ho
  split at ho
  · exact ⟨o, ho, rfl, rfl⟩
  · rename_i ord heq
    have hmem : ord ∈ s.orders := List.mem_of_find?_eq_some heq
    repeat' split at ho
    all_goals first
      | exact ⟨o, ho, rfl, rfl⟩
      | (simp only [Store.putOrder, List.mem_map] at ho
         rcases ho with ⟨x, hx, rfl⟩
         split
         · exact ⟨ord, hmem,
             (applyFields_proof_of_payment ord data),
             (applyFields_order_status ord data)⟩
         · exact ⟨x, hx, rfl, rfl⟩)

/-- Every order stored after an upload attempt was already stored or is
finalized with a proof of payment set. -/
theorem upload_store_mem (cfg : Config) (s : Store) (oid : Nat)
    (ff : Option String) (ts : String) (orc : NotifyOracles) :
    ∀ o ∈ (upload_payment_proof cfg s oid ff ts orc).2.1.orders,
      o ∈ s.orders ∨ (o.proof_of_payment ≠ none ∧ o.order_status = finalizedStatus) := by
  intro o ho
  simp only [upload_payment_proof] at ho
  repeat' split at ho
  all_goals first
    | exact Or.inl ho
    | (simp only [Store.putOrder, List.mem_map] at ho
       rcases ho with ⟨x, hx, rfl⟩
       split
       · exact Or.inr ⟨by simp, rfl⟩
       · exact Or.inl hx)

/-- C8: in every store reachable by any sequence of create, update and
finalize calls, an order carries a proof of payment exactly when its
status is the finalized one: create yields a pending order without a
proof, update never writes proof or status, and finalize writes both
together. -/
theorem reachable_proof_iff_finalized (s : Store) (h : Reachable s) :
    proofStatusInv s := by
  induction h with
  | empty =>
      intro o ho
      simp [Store.empty] at ho
  | createStep cfg s rc pc data _ ih =>
      intro o ho
      rcases create_store_mem cfg s rc pc data o ho with h1 | ⟨hp, hst⟩
      · exact ih o h1
      · constructor
        · intro hc; exact absurd hp hc
        · intro hfin
          rw [hst] at hfin
          exact absurd hfin (by decide)
  | updateStep cfg s oid data _ ih =>
      intro o ho
      rcases update_store_mem cfg s oid data o ho with ⟨o0, ho0, hp, hst⟩
      rw [hp, hst]
      exact ih o0 ho0
  | finalizeStep cfg s oid ff ts orc _ ih =>
      intro o ho
      rcases upload_store_mem cfg s oid ff ts orc o ho with h1 | ⟨hp, hst⟩
      · exact ih o h1
      · exact ⟨fun _ => hst, fun _ => hp⟩

/-- Witness for C8: the invariant evaluated on the store obtained by a
concrete create followed by a concrete finalize. -/
theorem reachable_proof_iff_finalized_witness :
    proofStatusInv
      (upload_payment_proof cfgOff
        (create_order cfgOff Store.empty "R1" "P1" badCreateData).2.1 1
        (some "p.png") "t" sampleOracles).2.1 :=
  reachable_proof_iff_finalized _
    (Reachable.finalizeStep cfgOff _ 1 (some "p.png") "t" sampleOracles
      (Reachable.createStep cfgOff Store.empty "R1" "P1" badCreateData Reachable.empty))

/-- On a pending order with an acceptable file, the upload route
commits the finalized order and returns it with the two notification
flags. -/
theorem upload_success_eq (cfg : Config) (s : Store) (oid : Nat) (f ts : String)
    (orc : NotifyOracles) (ord : Order)
    (hget : s.getOrder oid = some ord)
    (hpend : ord.order_status = pendingStatus)
    (hne : ¬(f = ""))
    (hfile : allowed_file f = true) :
    upload_payment_proof cfg s oid (some f) ts orc =
      (.ok (finalizeOrderOf ord f ts,
            (notifyDispatch cfg (finalizeOrderOf ord f ts) orc).1,
            (notifyDispatch cfg (finalizeOrderOf ord f ts) orc).2.1),
       s.putOrder (finalizeOrderOf ord f ts),
       pingEvents cfg ++ (notifyDispatch cfg (finalizeOrderOf ord f ts) orc).2.2) := by
  simp [upload_payment_proof, hget, hpend, hne, hfile, finalizeOrderOf]

/-- C1: a successful finalize (proof-of-payment upload) of a pending
order returns the order with its status set to the finalized status
value (the string the code stores for the state the spec calls
`finalized`), the stored status afterwards is that same value, and it
lies in the two-element status set {pending, finalized}. -/
theorem finalize_sets_finalized_status (cfg : Config) (s : Store) (oid : Nat)
    (f ts : String) (orc : NotifyOracles) (ord : Order)
    (hget : s.getOrder oid = some ord)
    (hpend : ord.order_status = pendingStatus)
    (hne : ¬(f = ""))
    (hfile : allowed_file f = true) :
    ∃ ord2 c a,
      (upload_payment_proof cfg s oid (some f) ts orc).1 = .ok (ord2, c, a) ∧
      ord2.order_status = finalizedStatus ∧
      (ord2.order_status = pendingStatus ∨ ord2.order_status = finalizedStatus) ∧
      (upload_payment_proof cfg s oid (some f) ts orc).2.1.getOrder oid = some ord2 := by
  have he := upload_success_eq cfg s oid f ts orc ord hget hpend hne hfile
  refine ⟨finalizeOrderOf ord f ts,
    (notifyDispatch cfg (finalizeOrderOf ord f ts) orc).1,
    (notifyDispatch cfg (finalizeOrderOf ord f ts) orc).2.1, ?_, rfl, Or.inr rfl, ?_⟩
  · rw [he]
  · rw [he]
    exact getOrder_putOrder s oid ord (finalizeOrderOf ord f ts) hget rfl

/-- In delegated mode any failing delegated outcome leaves both flags
at false. -/
theorem notifyDispatch_delegated_failed (cfg : Config) (ord : Order)
    (orc : NotifyOracles) (hd : delegatedConfigured cfg = true)
    (hf : delegatedFailed orc.delegated = true) :
    (notifyDispatch cfg ord orc).1 = .bool false ∧
    (notifyDispatch cfg ord orc).2.1 = .bool false := by
  cases hdel : orc.delegated with
  | transportError => simp [notifyDispatch, hd, hdel]
  | response st body =>
      rw [hdel] at hf
      by_cases hst : st = 200
      · subst hst
        cases body with
        | none => simp [notifyDispatch, hd, hdel]
        | some b =>
            cases hp : parseEmailFlags b with
            | none => simp [notifyDispatch, hd, hdel, hp]
            | some pr =>
                exfalso
                simp [delegatedFailed, hp] at hf
      · simp [notifyDispatch, hd, hdel, hst]

/-- In delegated mode a 200 response with readable flags is believed
verbatim, after exactly one outbound call. -/
theorem notifyDispatch_delegated_200 (cfg : Config) (ord : Order)
    (orc : NotifyOracles) (b c a : Json) (hd : delegatedConfigured cfg = true)
    (hresp : orc.delegated = .response 200 (some b))
    (hp : parseEmailFlags b = some (c, a)) :
    notifyDispatch cfg ord orc =
      (c, a, [Event.delegatedPost
        (cfg.email_service_backend_url.getD "" ++ "/send-order-email")]) := by
  simp [notifyDispatch, hd, hresp, hp]

/-- In local mode the dispatcher runs the two helper sends
independently. -/
theorem notifyDispatch_local (cfg : Config) (ord : Order) (orc : NotifyOracles)
    (hd : delegatedConfigured cfg = false) (hl : localConfigured cfg = true) :
    notifyDispatch cfg ord orc =
      (.bool (send_customer_email orc.customer ord.email).1,
       .bool (send_admin_email cfg orc.admin).1,
       (send_customer_email orc.customer ord.email).2 ++
         (send_admin_email cfg orc.admin).2) := by
  simp [notifyDispatch, hd, hl]

/-- With neither path configured the dispatcher reports false flags
and performs no outbound call. -/
theorem notifyDispatch_unconfigured (cfg : Config) (ord : Order)
    (orc : NotifyOracles) (hd : delegatedConfigured cfg = false)
    (hl : localConfigured cfg = false) :
    notifyDispatch cfg ord orc = (.bool false, .bool false, []) := by
  simp [notifyDispatch, hd, hl]

/-- C2: on a pending order the finalize route always succeeds whatever
the notification outcome, the committed store is the same for every
notification outcome (the commit precedes and is independent of the
notification attempt), every failing delegated outcome is downgraded to
false flags, and in local mode a failed send is downgraded to a false
flag for that recipient. -/
theorem finalize_notification_decoupled (cfg : Config) (s : Store) (oid : Nat)
    (f ts : String) (ord : Order)
    (hget : s.getOrder oid = some ord)
    (hpend : ord.order_status = pendingStatus)
    (hne : ¬(f = ""))
    (hfile : allowed_file f = true) :
    (∀ orc : NotifyOracles, ∃ c a,
        (upload_payment_proof cfg s oid (some f) ts orc).1 =
          .ok (finalizeOrderOf ord f ts, c, a)) ∧
    (∀ orc : NotifyOracles,
        (upload_payment_proof cfg s oid (some f) ts orc).2.1 =
          s.putOrder (finalizeOrderOf ord f ts)) ∧
    (∀ orc : NotifyOracles, delegatedConfigured cfg = true →
        delegatedFailed orc.delegated = true →
        (upload_payment_proof cfg s oid (some f) ts orc).1 =
          .ok (finalizeOrderOf ord f ts, .bool false, .bool false)) ∧
    (∀ orc : NotifyOracles, delegatedConfigured cfg = false →
        localConfigured cfg = true →
        ∃ c a, (upload_payment_proof cfg s oid (some f) ts orc).1 =
            .ok (finalizeOrderOf ord f ts, .bool c, .bool a) ∧
          (orc.customer = .failed → c = false) ∧
          (orc.admin = .failed → a = false)) := by
  refine ⟨?_, ?_, ?_, ?_⟩
  · intro orc
    exact ⟨_, _, by rw [upload_success_eq cfg s oid f ts orc ord hget hpend hne hfile]⟩
  · intro orc
    rw [upload_success_eq cfg s oid f ts orc ord hget hpend hne hfile]
  · intro orc hd hf
    rw [upload_success_eq cfg s oid f ts orc ord hget hpend hne hfile]
    have h2 := notifyDispatch_delegated_failed cfg (finalizeOrderOf ord f ts) orc hd hf
    rw [h2.1, h2.2]
  · intro orc hd hl
    rw [upload_success_eq cfg s oid f ts orc ord hget hpend hne hfile]
    rw [notifyDispatch_local cfg (finalizeOrderOf ord f ts) orc hd hl]
    refine ⟨(send_customer_email orc.customer (finalizeOrderOf ord f ts).email).1,
      (send_admin_email cfg orc.admin).1, rfl, ?_, ?_⟩
    · intro hc; rw [hc]; rfl
    · intro ha; rw [ha]
      unfold send_admin_email
      split <;> rfl

/-- Witness for C2 at a concrete pending order. -/
theorem finalize_notification_decoupled_witness :
    sampleStore.getOrder 1 = some sampleOrder ∧
    sampleOrder.order_status = pendingStatus ∧
    ¬(("p.png" : String) = "") ∧
    allowed_file "p.png" = true ∧
    ((∀ orc : NotifyOracles, ∃ c a,
        (upload_payment_proof cfgLocal sampleStore 1 (some "p.png") "t" orc).1 =
          .ok (finalizeOrderOf sampleOrder "p.png" "t", c, a)) ∧
    (∀ orc : NotifyOracles,
        (upload_payment_proof cfgLocal sampleStore 1 (some "p.png") "t" orc).2.1 =
          sampleStore.putOrder (finalizeOrderOf sampleOrder "p.png" "t")) ∧
    (∀ orc : NotifyOracles, delegatedConfigured cfgLocal = true →
        delegatedFailed orc.delegated = true →
        (upload_payment_proof cfgLocal sampleStore 1 (some "p.png") "t" orc).1 =
          .ok (finalizeOrderOf sampleOrder "p.png" "t", .bool false, .bool false)) ∧
    (∀ orc : NotifyOracles, delegatedConfigured cfgLocal = false →
        localConfigured cfgLocal = true →
        ∃ c a, (upload_payment_proof cfgLocal sampleStore 1 (some "p.png") "t" orc).1 =
            .ok (finalizeOrderOf sampleOrder "p.png" "t", .bool c, .bool a) ∧
          (orc.customer = .failed → c = false) ∧
          (orc.admin = .failed → a = false))) :=
  ⟨rfl, rfl, by decide, by decide,
    finalize_notification_decoupled cfgLocal sampleStore 1 "p.png" "t" sampleOrder
      rfl rfl (by decide) (by decide)⟩

/-- C3: on an order that is not pending, update fails with the
InvalidState response for every input and commits nothing, a repeated
finalize fails with the InvalidState response and commits nothing (so
the stored proof of payment is unchanged), and the only event either
rejected call can have emitted is the background health ping, never a
mail send or a delegated dispatch. -/
theorem nonpending_rejected (cfg : Config) (s : Store) (oid : Nat) (ord : Order)
    (hget : s.getOrder oid = some ord)
    (hnp : ¬(ord.order_status = pendingStatus)) :
    (∀ data : List (String × Json),
        update_order cfg s oid data =
          (.error (.forbidden
            "Order cannot be updated after proof of payment has been submitted"),
           s, pingEvents cfg)) ∧
    (∀ (ff : Option String) (ts : String) (orc : NotifyOracles),
        upload_payment_proof cfg s oid ff ts orc =
          (.error (.forbidden
            "Proof of payment has already been submitted for this order"),
           s, pingEvents cfg)) ∧
    (∀ e ∈ pingEvents cfg, (∀ r, ¬(e = Event.mailSendAttempt r)) ∧
        (∀ u, ¬(e = Event.delegatedPost u))) := by
  refine ⟨?_, ?_, ?_⟩
  · intro data
    simp [update_order, hget, hnp]
  · intro ff ts orc
    simp [upload_payment_proof, hget, hnp]
  · intro e he
    unfold pingEvents at he
    split at he
    · simp only [List.mem_singleton] at he
      subst he
      exact ⟨fun r => by simp, fun u => by simp⟩
    · simp at he

/-- Witness for C3 at a concrete finalized order. -/
theorem nonpending_rejected_witness :
    twoOrderStore.getOrder 2 = some finalizedOrder ∧
    ¬(finalizedOrder.order_status = pendingStatus) ∧
    ((∀ data : List (String × Json),
        update_order cfgLocal twoOrderStore 2 data =
          (.error (.forbidden
            "Order cannot be updated after proof of payment has been submitted"),
           twoOrderStore, pingEvents cfgLocal)) ∧
    (∀ (ff : Option String) (ts : String) (orc : NotifyOracles),
        upload_payment_proof cfgLocal twoOrderStore 2 ff ts orc =
          (.error (.forbidden
            "Proof of payment has already been submitted for this order"),
           twoOrderStore, pingEvents cfgLocal)) ∧
    (∀ e ∈ pingEvents cfgLocal, (∀ r, ¬(e = Event.mailSendAttempt r)) ∧
        (∀ u, ¬(e = Event.delegatedPost u)))) :=
  ⟨rfl, by decide,
    nonpending_rejected cfgLocal twoOrderStore 2 finalizedOrder rfl (by decide)⟩

/-- Witness for C1 at a concrete pending order and file. -/
theorem finalize_sets_finalized_status_witness :
    sampleStore.getOrder 1 = some sampleOrder ∧
    sampleOrder.order_status = pendingStatus ∧
    ¬(("p.png" : String) = "") ∧
    allowed_file "p.png" = true ∧
    (∃ ord2 c a,
      (upload_payment_proof cfgLocal sampleStore 1 (some "p.png") "t" sampleOracles).1 =
        .ok (ord2, c, a) ∧
      ord2.order_status = finalizedStatus ∧
      (ord2.order_status = pendingStatus ∨ ord2.order_status = finalizedStatus) ∧
      (upload_payment_proof cfgLocal sampleStore 1 (some "p.png") "t" sampleOracles).2.1.getOrder 1 =
        some ord2) :=
  ⟨rfl, rfl, by decide, by decide,
    finalize_sets_finalized_status cfgLocal sampleStore 1 "p.png" "t" sampleOracles
      sampleOrder rfl rfl (by decide) (by decide)⟩

/-- Whether an item passes validation does not depend on the index the
loop reached it at; only the error message does. -/
theorem itemCheck_toOption_eq (n : Nat) (x : Json) :
    (itemCheck n x).toOption = (itemCheck 0 x).toOption := by
  cases x with
  | obj fields =>
      by_cases hmiss : ((lookupField fields "name").isNone
          || (lookupField fields "amount").isNone
          || (lookupField fields "quantity").isNone) = true
      · simp [itemCheck, hmiss, Except.toOption]
      · cases hf : pyFloat ((lookupField fields "amount").getD .null) with
        | none => simp [itemCheck, hmiss, hf, Except.toOption]
        | some a =>
            cases hq : pyInt ((lookupField fields "quantity").getD .null) with
            | none => simp [itemCheck, hmiss, hf, hq, Except.toOption]
            | some q => simp [itemCheck, hmiss, hf, hq, Except.toOption]
  | null => rfl
  | bool b => rfl
  | num q => rfl
  | str s => rfl
  | arr xs => rfl

theorem itemCheck_ok_of_itemOk (n : Nat) (x : Json) (h : itemOk x = true) :
    ∃ it, itemCheck n x = .ok it := by
  unfold itemOk at h
  rw [← itemCheck_toOption_eq n x] at h
  cases hc : itemCheck n x with
  | ok it => exact ⟨it, rfl⟩
  | error e => rw [hc] at h; simp [Except.toOption] at h

theorem itemCheck_error_of_not_itemOk (n : Nat) (x : Json) (h : itemOk x = false) :
    itemCheck n x = .error (itemErrText n x) := by
  unfold itemOk at h
  rw [← itemCheck_toOption_eq n x] at h
  cases hc : itemCheck n x with
  | ok it => rw [hc] at h; simp [Except.toOption] at h
  | error e => rw [itemErrText, hc]

/-- The first invalid item is indeed invalid. -/
theorem firstBadItem_not_ok (items : List Json) :
    ∀ n k j, firstBadItem n items = some (k, j) → itemOk j = false := by
  induction items with
  | nil => intro n k j h; simp [firstBadItem] at h
  | cons x rest ih =>
      intro n k j h
      unfold firstBadItem at h
      by_cases hx : itemOk x = true
      · rw [if_pos hx] at h
        exact ih (n + 1) k j h
      · rw [if_neg hx] at h
        obtain ⟨rfl, rfl⟩ : k = n ∧ j = x := by
          injection h with h2
          injection h2 with h3 h4
          exact ⟨h3.symm, h4.symm⟩
        exact Bool.eq_false_iff.mpr hx

/-- Validating a list whose first invalid item sits at index `k` fails
with the message for index `k`. -/
theorem checkItems_firstBad (items : List Json) :
    ∀ n k j, firstBadItem n items = some (k, j) →
      checkItems n items = .error (itemErrText k j) := by
  induction items with
  | nil => intro n k j h; simp [firstBadItem] at h
  | cons x rest ih =>
      intro n k j h
      unfold firstBadItem at h
      by_cases hx : itemOk x = true
      · rw [if_pos hx] at h
        obtain ⟨it, hit⟩ := itemCheck_ok_of_itemOk n x hx
        simp only [checkItems, hit, ih (n + 1) k j h]
      · rw [if_neg hx] at h
        injection h with h2
        injection h2 with h3 h4
        subst h3
        subst h4
        simp only [checkItems,
          itemCheck_error_of_not_itemOk n x (Bool.eq_false_iff.mpr hx)]

/-- Every item error message literally names its index. -/
theorem itemErrText_names_index (k : Nat) (j : Json) (h : itemOk j = false) :
    ∃ tail, itemErrText k j = "Item at index " ++ toString k ++ tail := by
  cases j with
  | obj fields =>
      by_cases hmiss : ((lookupField fields "name").isNone
          || (lookupField fields "amount").isNone
          || (lookupField fields "quantity").isNone) = true
      · exact ⟨" missing required fields (name, amount, quantity)",
          by simp [itemErrText, itemCheck, hmiss, itemErrMissing]⟩
      · cases hf : pyFloat ((lookupField fields "amount").getD .null) with
        | none =>
            exact ⟨" has invalid amount or quantity",
              by simp [itemErrText, itemCheck, hmiss, hf, itemErrInvalid]⟩
        | some a =>
            cases hq : pyInt ((lookupField fields "quantity").getD .null) with
            | none =>
                exact ⟨" has invalid amount or quantity",
                  by simp [itemErrText, itemCheck, hmiss, hf, hq, itemErrInvalid]⟩
            | some q =>
                exfalso
                simp [itemOk, itemCheck, hmiss, hf, hq, Except.toOption] at h
  | null => exact ⟨" must be an object", by simp [itemErrText, itemCheck, itemErrObject]⟩
  | bool b => exact ⟨" must be an object", by simp [itemErrText, itemCheck, itemErrObject]⟩
  | num q => exact ⟨" must be an object", by simp [itemErrText, itemCheck, itemErrObject]⟩
  | str s => exact ⟨" must be an object", by simp [itemErrText, itemCheck, itemErrObject]⟩
  | arr xs => exact ⟨" must be an object", by simp [itemErrText, itemCheck, itemErrObject]⟩

/-- Counterexample for C4: a create body whose contact fields are all
empty strings and whose only item has amount -5 and quantity 0 is
accepted, and the order and its item are persisted — the code checks
only key presence and numeric parseability, not emptiness, sign or
positivity. -/
theorem create_accepts_empty_and_negative :
    create_order cfgOff Store.empty "R1" "P1" badCreateData =
      (.ok badOrder, ⟨[badOrder], 2⟩, []) ∧
    badOrder.name = .str "" ∧
    badOrder.items = [⟨.str "Yoghurt", -5, 0⟩] ∧
    ((-5 : Rat) < 0) ∧ ((0 : Int) ≤ 0) :=
  ⟨rfl, rfl, rfl, by norm_num, by norm_num⟩

/-- A list without a bad item validates and converts successfully. -/
theorem checkItems_ok_of_noBad (items : List Json) :
    ∀ n, firstBadItem n items = none → ∃ its, checkItems n items = .ok its := by
  induction items with
  | nil => intro n _; exact ⟨[], rfl⟩
  | cons x rest ih =>
      intro n h
      unfold firstBadItem at h
      by_cases hx : itemOk x = true
      · rw [if_pos hx] at h
        obtain ⟨it, hit⟩ := itemCheck_ok_of_itemOk n x hx
        obtain ⟨its, hits⟩ := ih (n + 1) h
        exact ⟨it :: its, by simp only [checkItems, hit, hits]⟩
      · rw [if_neg hx] at h
        simp at h

/-- When no required field is missing, the body carries an items
value. -/
theorem lookup_items_of_noMissing (data : List (String × Json))
    (h : firstMissingField data = none) :
    ∃ v, lookupField data "items" = some v := by
  unfold firstMissingField at h
  have hni := List.find?_eq_none.mp h "items" (by decide)
  cases hl : lookupField data "items" with
  | none => exact absurd (by simp [hl]) hni
  | some v => exact ⟨v, rfl⟩

/-- Every rejected input makes create return an error response with
the store untouched. -/
theorem create_rejected_cases (cfg : Config) (s : Store) (rc pc : String)
    (data : List (String × Json)) (h : createRejectedInput data = true) :
    ∃ e, create_order cfg s rc pc data = (.error e, s, pingEvents cfg) := by
  unfold createRejectedInput at h
  by_cases hde : data.isEmpty = true
  · exact ⟨.badRequest "Request must be JSON", by simp [create_order, hde]⟩
  · have hde2 : data.isEmpty = false := by simpa using hde
    rw [hde2] at h
    simp only [Bool.false_or] at h
    cases hmf : firstMissingField data with
    | some fld =>
        exact ⟨.badRequest ("Missing required field: " ++ fld),
          by simp [create_order, hde2, hmf]⟩
    | none =>
        rw [hmf] at h
        simp only [Option.isSome_none, Bool.false_or] at h
        obtain ⟨v, hv⟩ := lookup_items_of_noMissing data hmf
        rw [hv] at h
        simp only [Option.getD_some] at h
        cases v with
        | arr itemsData =>
            simp only [Bool.or_eq_true] at h
            rcases h with h | h
            · exact ⟨.badRequest "Items must be a non-empty array",
                by simp [create_order, hde2, hmf, hv, h]⟩
            · obtain ⟨⟨k, j⟩, hkj⟩ := Option.isSome_iff_exists.mp h
              have hniE : itemsData.isEmpty = false := by
                cases itemsData with
                | nil => simp [firstBadItem] at hkj
                | cons x xs => rfl
              exact ⟨.badRequest (itemErrText k j),
                by simp [create_order, hde2, hmf, hv, hniE,
                  checkItems_firstBad itemsData 0 k j hkj]⟩
        | null =>
            exact ⟨.badRequest "Items must be a non-empty array",
              by simp [create_order, hde2, hmf, hv]⟩
        | bool b =>
            exact ⟨.badRequest "Items must be a non-empty array",
              by simp [create_order, hde2, hmf, hv]⟩
        | num q =>
            exact ⟨.badRequest "Items must be a non-empty array",
              by simp [create_order, hde2, hmf, hv]⟩
        | str sv =>
            exact ⟨.badRequest "Items must be a non-empty array",
              by simp [create_order, hde2, hmf, hv]⟩
        | obj fs =>
            exact ⟨.badRequest "Items must be a non-empty array",
              by simp [create_order, hde2, hmf, hv]⟩

/-- Every input outside the rejection set makes create succeed and
persist the built order with its converted items. -/
theorem create_accepted_case (cfg : Config) (s : Store) (rc pc : String)
    (data : List (String × Json)) (h : createRejectedInput data = false) :
    ∃ itemsData items,
      lookupField data "items" = some (.arr itemsData) ∧
      checkItems 0 itemsData = .ok items ∧
      create_order cfg s rc pc data =
        (.ok (createdOrder s rc pc data items),
         ⟨s.orders ++ [createdOrder s rc pc data items], s.nextId + 1⟩,
         pingEvents cfg) := by
  unfold createRejectedInput at h
  have hde : data.isEmpty = false := by
    cases hx : data.isEmpty with
    | false => rfl
    | true => rw [hx] at h; simp at h
  rw [hde] at h
  simp only [Bool.false_or] at h
  have hmf : firstMissingField data = none := by
    cases hx : firstMissingField data with
    | none => rfl
    | some fld => rw [hx] at h; simp at h
  rw [hmf] at h
  simp only [Option.isSome_none, Bool.false_or] at h
  obtain ⟨v, hv⟩ := lookup_items_of_noMissing data hmf
  rw [hv] at h
  simp only [Option.getD_some] at h
  cases v with
  | arr itemsData =>
      dsimp only at h
      have hE : itemsData.isEmpty = false := by
        cases hx : itemsData.isEmpty with
        | false => rfl
        | true => rw [hx] at h; simp at h
      rw [hE] at h
      simp only [Bool.false_or] at h
      have hnone : firstBadItem 0 itemsData = none := by
        cases hx : firstBadItem 0 itemsData with
        | none => rfl
        | some kj => rw [hx] at h; simp at h
      obtain ⟨its, hits⟩ := checkItems_ok_of_noBad itemsData 0 hnone
      refine ⟨itemsData, its, hv, hits, ?_⟩
      simp [create_order, hde, hmf, hv, hE, hits]
  | null => simp at h
  | bool b => simp at h
  | num q => simp at h
  | str sv => simp at h
  | obj fs => simp at h

/-- C4 (amended): create fails with a 400 ValidationError and persists
no order and no items exactly when the body is falsy, a required key
is absent, the items value is not a non-empty list, or some item is
not an object, lacks a name/amount/quantity key, or carries an
amount/quantity the float()/int() conversion rejects; a missing key
names the first missing field, an invalid item names the first
offending index; and every other input — in particular one with
empty-string contact fields, negative amounts or non-positive
quantities — is accepted and persisted together with its items. -/
theorem create_validation_behaviour (cfg : Config) (s : Store) (rc pc : String)
    (data : List (String × Json)) :
    ((∃ e, (create_order cfg s rc pc data).1 = .error e) ↔
        createRejectedInput data = true) ∧
    (createRejectedInput data = true →
        (create_order cfg s rc pc data).2.1 = s) ∧
    (∀ fld, ¬(data = []) → firstMissingField data = some fld →
        create_order cfg s rc pc data =
          (.error (.badRequest ("Missing required field: " ++ fld)), s, pingEvents cfg)) ∧
    (∀ itemsData k j, ¬(data = []) → firstMissingField data = none →
        lookupField data "items" = some (.arr itemsData) →
        firstBadItem 0 itemsData = some (k, j) →
        create_order cfg s rc pc data =
          (.error (.badRequest (itemErrText k j)), s, pingEvents cfg) ∧
        (∃ tail, itemErrText k j = "Item at index " ++ toString k ++ tail)) ∧
    (createRejectedInput data = false →
        ∃ itemsData items,
          lookupField data "items" = some (.arr itemsData) ∧
          checkItems 0 itemsData = .ok items ∧
          create_order cfg s rc pc data =
            (.ok (createdOrder s rc pc data items),
             ⟨s.orders ++ [createdOrder s rc pc data items], s.nextId + 1⟩,
             pingEvents cfg)) := by
  refine ⟨⟨?_, ?_⟩, ?_, ?_, ?_, ?_⟩
  · rintro ⟨e, he⟩
    cases hr : createRejectedInput data with
    | false =>
        exfalso
        obtain ⟨itemsData, items, _, _, hok⟩ := create_accepted_case cfg s rc pc data hr
        rw [hok] at he
        simp at he
    | true => rfl
  · intro h
    obtain ⟨e, heq⟩ := create_rejected_cases cfg s rc pc data h
    exact ⟨e, by rw [heq]⟩
  · intro h
    obtain ⟨e, heq⟩ := create_rejected_cases cfg s rc pc data h
    rw [heq]
  · intro fld hne hmf
    have hde : data.isEmpty = false := by
      cases data with
      | nil => exact absurd rfl hne
      | cons x xs => rfl
    simp [create_order, hde, hmf]
  · intro itemsData k j hne hmf hitems hbad
    have hde : data.isEmpty = false := by
      cases data with
      | nil => exact absurd rfl hne
      | cons x xs => rfl
    have hniE : itemsData.isEmpty = false := by
      cases itemsData with
      | nil => simp [firstBadItem] at hbad
      | cons x xs => rfl
    refine ⟨?_, itemErrText_names_index k j (firstBadItem_not_ok itemsData 0 k j hbad)⟩
    simp [create_order, hde, hmf, hitems, hniE, checkItems_firstBad itemsData 0 k j hbad]
  · exact create_accepted_case cfg s rc pc data

/-- Witness for the amended C4: the rejection side at a body whose
second item lacks its quantity key, and the acceptance side at the
body with empty contact fields and a negative-amount zero-quantity
item, which is persisted. -/
theorem create_validation_behaviour_witness :
    createRejectedInput mixedItemsData = true ∧
    ¬(mixedItemsData = []) ∧
    firstMissingField mixedItemsData = none ∧
    lookupField mixedItemsData "items" = some (.arr [okItemJson, missingQtyItem]) ∧
    firstBadItem 0 [okItemJson, missingQtyItem] = some (1, missingQtyItem) ∧
    (create_order cfgOff Store.empty "R1" "P1" mixedItemsData =
      (.error (.badRequest (itemErrText 1 missingQtyItem)), Store.empty, pingEvents cfgOff) ∧
     ∃ tail, itemErrText 1 missingQtyItem = "Item at index " ++ toString 1 ++ tail) ∧
    createRejectedInput badCreateData = false ∧
    (∃ itemsData items,
        lookupField badCreateData "items" = some (.arr itemsData) ∧
        checkItems 0 itemsData = .ok items ∧
        create_order cfgOff Store.empty "R1" "P1" badCreateData =
          (.ok (createdOrder Store.empty "R1" "P1" badCreateData items),
           ⟨Store.empty.orders ++ [createdOrder Store.empty "R1" "P1" badCreateData items],
            Store.empty.nextId + 1⟩, pingEvents cfgOff)) ∧
    createdOrder Store.empty "R1" "P1" badCreateData [⟨.str "Yoghurt", -5, 0⟩] = badOrder :=
  ⟨rfl, by simp [mixedItemsData], rfl, rfl, rfl,
    (create_validation_behaviour cfgOff Store.empty "R1" "P1" mixedItemsData).2.2.2.1
      [okItemJson, missingQtyItem] 1 missingQtyItem (by simp [mixedItemsData]) rfl rfl rfl,
    rfl,
    (create_validation_behaviour cfgOff Store.empty "R1" "P1" badCreateData).2.2.2.2 rfl,
    rfl⟩

/-- C7: an update of a pending order whose items list contains an
invalid item fails with a 400 ValidationError whose message names the
first offending index, and commits nothing: the stored order, in
particular its original item set, is fully intact. -/
theorem update_invalid_items_atomic (cfg : Config) (s : Store) (oid : Nat)
    (data : List (String × Json)) (ord : Order) (itemsData : List Json)
    (k : Nat) (j : Json)
    (hget : s.getOrder oid = some ord)
    (hpend : ord.order_status = pendingStatus)
    (hne : ¬(data = []))
    (hitems : lookupField data "items" = some (.arr itemsData))
    (hbad : firstBadItem 0 itemsData = some (k, j)) :
    update_order cfg s oid data =
      (.error (.badRequest (itemErrText k j)), s, pingEvents cfg) ∧
    (update_order cfg s oid data).2.1.getOrder oid = some ord ∧
    (∃ tail, itemErrText k j = "Item at index " ++ toString k ++ tail) := by
  have hde : data.isEmpty = false := by
    cases data with
    | nil => exact absurd rfl hne
    | cons x xs => rfl
  have hniE : itemsData.isEmpty = false := by
    cases itemsData with
    | nil => simp [firstBadItem] at hbad
    | cons x xs => rfl
  have hmain : update_order cfg s oid data =
      (.error (.badRequest (itemErrText k j)), s, pingEvents cfg) := by
    simp [update_order, hget, hpend, hde, hitems, hniE,
      checkItems_firstBad itemsData 0 k j hbad]
  refine ⟨hmain, ?_, itemErrText_names_index k j (firstBadItem_not_ok itemsData 0 k j hbad)⟩
  rw [hmain]
  exact hget

/-- Witness for C7 at a concrete pending order and a two-item update
body whose second item is invalid. -/
theorem update_invalid_items_atomic_witness :
    sampleStore.getOrder 1 = some sampleOrder ∧
    sampleOrder.order_status = pendingStatus ∧
    ¬(updBadData = []) ∧
    lookupField updBadData "items" = some (.arr [okItemJson, missingQtyItem]) ∧
    firstBadItem 0 [okItemJson, missingQtyItem] = some (1, missingQtyItem) ∧
    (update_order cfgOff sampleStore 1 updBadData =
      (.error (.badRequest (itemErrText 1 missingQtyItem)), sampleStore, pingEvents cfgOff) ∧
    (update_order cfgOff sampleStore 1 updBadData).2.1.getOrder 1 = some sampleOrder ∧
    (∃ tail, itemErrText 1 missingQtyItem = "Item at index " ++ toString 1 ++ tail)) :=
  ⟨rfl, rfl, by simp [updBadData], rfl, rfl,
    update_invalid_items_atomic cfgOff sampleStore 1 updBadData sampleOrder
      [okItemJson, missingQtyItem] 1 missingQtyItem rfl rfl (by simp [updBadData]) rfl rfl⟩

/-- In delegated mode exactly one outbound delegated call is issued,
whatever the outcome: there is no retry within the dispatch. -/
theorem notifyDispatch_delegated_events (cfg : Config) (ord : Order)
    (orc : NotifyOracles) (hd : delegatedConfigured cfg = true) :
    (notifyDispatch cfg ord orc).2.2 =
      [Event.delegatedPost
        (cfg.email_service_backend_url.getD "" ++ "/send-order-email")] := by
  cases hdel : orc.delegated with
  | transportError => simp [notifyDispatch, hd, hdel]
  | response st body =>
      by_cases hst : st = 200
      · subst hst
        cases body with
        | none => simp [notifyDispatch, hd, hdel]
        | some b =>
            cases hp : parseEmailFlags b with
            | none => simp [notifyDispatch, hd, hdel, hp]
            | some pr =>
                cases pr
                simp [notifyDispatch, hd, hdel, hp]
      · simp [notifyDispatch, hd, hdel, hst]

/-- Counterexample for C5: the backend of this repository answers a
partial success (customer sent, admin failed) with status 207 and a
body carrying customer=true, but the delegated branch of the upload
route only believes a 200 response, so it reports both flags false,
not the one carried true. -/
theorem delegated_partial_success_dropped :
    send_order_email_core cfgLocal .sent .failed true true (.str "c@x.com") =
      (207, emailsSentBody true false) ∧
    parseEmailFlags (emailsSentBody true false) = some (.bool true, .bool false) ∧
    (notifyDispatch cfgDelegated sampleOrder
        ⟨.response 207 (some (emailsSentBody true false)), .sent, .sent⟩).1 = .bool false ∧
    (notifyDispatch cfgDelegated sampleOrder
        ⟨.response 207 (some (emailsSentBody true false)), .sent, .sent⟩).2.1 = .bool false :=
  ⟨rfl, rfl, rfl, rfl⟩

/-- C5 (amended): in delegated mode the dispatcher flags equal the
flags carried in the backend response only when the response status is
200 (the full-success class of the backend); every other outcome — the
207 partial-success class of the backend, any other non-200 status, an
unreadable body, a timeout or transport error — yields both flags
false; and exactly one outbound call is made, with no retry.  On the
backend side of this repository, a 200 response with both sends
requested does carry both flags true. -/
theorem delegated_dispatch_outcomes (cfg : Config) (ord : Order)
    (orc : NotifyOracles) (hd : delegatedConfigured cfg = true) :
    (∀ b c a, orc.delegated = .response 200 (some b) →
        parseEmailFlags b = some (c, a) →
        (notifyDispatch cfg ord orc).1 = c ∧
        (notifyDispatch cfg ord orc).2.1 = a) ∧
    (delegatedFailed orc.delegated = true →
        (notifyDispatch cfg ord orc).1 = .bool false ∧
        (notifyDispatch cfg ord orc).2.1 = .bool false) ∧
    (notifyDispatch cfg ord orc).2.2 =
      [Event.delegatedPost
        (cfg.email_service_backend_url.getD "" ++ "/send-order-email")] ∧
    (∀ (cfg2 : Config) (co ao : MailOutcome) (r : Json),
        (send_order_email_core cfg2 co ao true true r).1 = 200 →
        (send_order_email_core cfg2 co ao true true r).2 = emailsSentBody true true) := by
  refine ⟨?_, ?_, notifyDispatch_delegated_events cfg ord orc hd, ?_⟩
  · intro b c a hresp hp
    rw [notifyDispatch_delegated_200 cfg ord orc b c a hd hresp hp]
    exact ⟨rfl, rfl⟩
  · exact notifyDispatch_delegated_failed cfg ord orc hd
  · intro cfg2 co ao r h200
    by_cases hl : localConfigured cfg2 = true
    · cases hcb : (send_customer_email co r).1 <;>
        cases hab : (send_admin_email cfg2 ao).1 <;>
          simp [send_order_email_core, hl, hcb, hab] at h200 ⊢
    · simp [send_order_email_core, hl] at h200

/-- Witness for the amended C5 at a concrete 200 response carrying a
mixed flag pair. -/
theorem delegated_dispatch_outcomes_witness :
    delegatedConfigured cfgDelegated = true ∧
    ((∀ b c a,
        (NotifyOracles.mk (.response 200 (some (emailsSentBody true false))) .sent .sent).delegated
          = .response 200 (some b) →
        parseEmailFlags b = some (c, a) →
        (notifyDispatch cfgDelegated sampleOrder
          ⟨.response 200 (some (emailsSentBody true false)), .sent, .sent⟩).1 = c ∧
        (notifyDispatch cfgDelegated sampleOrder
          ⟨.response 200 (some (emailsSentBody true false)), .sent, .sent⟩).2.1 = a) ∧
    (delegatedFailed
        (NotifyOracles.mk (.response 200 (some (emailsSentBody true false))) .sent .sent).delegated
          = true →
        (notifyDispatch cfgDelegated sampleOrder
          ⟨.response 200 (some (emailsSentBody true false)), .sent, .sent⟩).1 = .bool false ∧
        (notifyDispatch cfgDelegated sampleOrder
          ⟨.response 200 (some (emailsSentBody true false)), .sent, .sent⟩).2.1 = .bool false) ∧
    (notifyDispatch cfgDelegated sampleOrder
        ⟨.response 200 (some (emailsSentBody true false)), .sent, .sent⟩).2.2 =
      [Event.delegatedPost
        (cfgDelegated.email_service_backend_url.getD "" ++ "/send-order-email")] ∧
    (∀ (cfg2 : Config) (co ao : MailOutcome) (r : Json),
        (send_order_email_core cfg2 co ao true true r).1 = 200 →
        (send_order_email_core cfg2 co ao true true r).2 = emailsSentBody true true)) :=
  ⟨rfl, delegated_dispatch_outcomes cfgDelegated sampleOrder
    ⟨.response 200 (some (emailsSentBody true false)), .sent, .sent⟩ rfl⟩

theorem send_customer_email_events (o : MailOutcome) (r : Json) :
    (send_customer_email o r).2 = [Event.mailSendAttempt [r]] := by
  cases o <;> rfl

theorem send_admin_email_events (cfg : Config) (o : MailOutcome) :
    (send_admin_email cfg o).2 = [] ∨
    ∃ rs, (send_admin_email cfg o).2 = [Event.mailSendAttempt rs] := by
  unfold send_admin_email
  split
  · cases o
    · exact Or.inr ⟨_, rfl⟩
    · exact Or.inr ⟨_, rfl⟩
  · exact Or.inl rfl

/-- C6: exactly one of the three dispatch modes holds for any
configuration, each a pure predicate on the configuration; in delegated
mode the mail transport is never touched, in local mode no delegated
call is issued, and in the unconfigured mode the dispatch returns both
flags false with no outbound event at all (not even the health ping). -/
theorem dispatch_mode_selection (cfg : Config) (ord : Order) (orc : NotifyOracles) :
    ((delegatedMode cfg = true ∨ localMode cfg = true ∨ unconfiguredMode cfg = true) ∧
     ¬(delegatedMode cfg = true ∧ localMode cfg = true) ∧
     ¬(delegatedMode cfg = true ∧ unconfiguredMode cfg = true) ∧
     ¬(localMode cfg = true ∧ unconfiguredMode cfg = true)) ∧
    (delegatedMode cfg = true →
        ∀ e ∈ (notifyDispatch cfg ord orc).2.2, ∀ r, ¬(e = Event.mailSendAttempt r)) ∧
    (localMode cfg = true →
        ∀ e ∈ (notifyDispatch cfg ord orc).2.2, ∀ u, ¬(e = Event.delegatedPost u)) ∧
    (unconfiguredMode cfg = true →
        notifyDispatch cfg ord orc = (.bool false, .bool false, []) ∧
        pingEvents cfg = []) := by
  refine ⟨?_, ?_, ?_, ?_⟩
  · cases hD : delegatedConfigured cfg <;> cases hL : localConfigured cfg <;>
      simp [delegatedMode, localMode, unconfiguredMode, hD, hL]
  · intro hmode e he r
    rw [notifyDispatch_delegated_events cfg ord orc hmode] at he
    simp only [List.mem_singleton] at he
    subst he
    simp
  · intro hmode e he u
    have hD : delegatedConfigured cfg = false := by
      simp [localMode] at hmode
      exact hmode.1
    have hL : localConfigured cfg = true := by
      simp [localMode] at hmode
      exact hmode.2
    rw [notifyDispatch_local cfg ord orc hD hL] at he
    simp only [List.mem_append] at he
    rcases he with he | he
    · rw [send_customer_email_events] at he
      simp only [List.mem_singleton] at he
      subst he
      simp
    · rcases send_admin_email_events cfg orc.admin with ha | ⟨rs, ha⟩
      · rw [ha] at he
        simp at he
      · rw [ha] at he
        simp only [List.mem_singleton] at he
        subst he
        simp
  · intro hmode
    have hD : delegatedConfigured cfg = false := by
      simp [unconfiguredMode] at hmode
      exact hmode.1
    have hL : localConfigured cfg = false := by
      simp [unconfiguredMode] at hmode
      exact hmode.2
    refine ⟨notifyDispatch_unconfigured cfg ord orc hD hL, ?_⟩
    simp [pingEvents, delegatedConfigured] at hD ⊢
    intro hout
    exact hD hout

/-- Witness for C6 in the unconfigured mode at a concrete order. -/
theorem dispatch_mode_selection_witness :
    unconfiguredMode cfgOff = true ∧
    (notifyDispatch cfgOff sampleOrder sampleOracles = (.bool false, .bool false, []) ∧
     pingEvents cfgOff = []) :=
  ⟨rfl, (dispatch_mode_selection cfgOff sampleOrder sampleOracles).2.2.2 rfl⟩

theorem isDigitChar_digitChar (k : Nat) : isDigitChar (digitChar k) = true := by
  unfold digitChar
  split <;> decide

theorem formatYYYYMMDD_mk (y m d : Nat) :
    formatYYYYMMDD y m d = String.mk
      [digitChar (y / 1000 % 10), digitChar (y / 100 % 10),
       digitChar (y / 10 % 10), digitChar (y % 10),
       digitChar (m / 10 % 10), digitChar (m % 10),
       digitChar (d / 10 % 10), digitChar (d % 10)] := rfl

theorem formatYYYYMMDD_length (y m d : Nat) :
    (formatYYYYMMDD y m d).length = 8 := rfl

theorem formatYYYYMMDD_digits (y m d : Nat) :
    (formatYYYYMMDD y m d).data.all isDigitChar = true := by
  rw [formatYYYYMMDD_mk]
  simp [List.all_cons, isDigitChar_digitChar]

/-- Whatever reference code the generator returns came from one of the
random draws, carries the literal prefix, date and dash, and was not in
the store when returned. -/
theorem generate_order_code_mem (s : Store) (today : String)
    (stream : List String) (code : String)
    (h : generate_order_code s today stream = some code) :
    ∃ suffix ∈ stream, code = "ORD-" ++ today ++ "-" ++ suffix ∧
      referenceCodeExists s code = false := by
  induction stream with
  | nil => simp [generate_order_code] at h
  | cons c rest ih =>
      unfold generate_order_code at h
      by_cases hex : referenceCodeExists s ("ORD-" ++ today ++ "-" ++ c) = true
      · rw [if_pos hex] at h
        obtain ⟨suf, hmem, heq, hfresh⟩ := ih h
        exact ⟨suf, List.mem_cons_of_mem _ hmem, heq, hfresh⟩
      · rw [if_neg hex] at h
        injection h with h2
        subst h2
        exact ⟨c, List.mem_cons_self _ _, rfl, Bool.eq_false_iff.mpr hex⟩

/-- Whatever payment code the generator returns came from one of the
random draws and was not in the store when returned. -/
theorem generate_payment_code_mem (s : Store) (stream : List String)
    (code : String) (h : generate_payment_code s stream = some code) :
    code ∈ stream ∧ paymentCodeExists s code = false := by
  induction stream with
  | nil => simp [generate_payment_code] at h
  | cons c rest ih =>
      unfold generate_payment_code at h
      by_cases hex : paymentCodeExists s c = true
      · rw [if_pos hex] at h
        obtain ⟨hmem, hfresh⟩ := ih h
        exact ⟨List.mem_cons_of_mem _ hmem, hfresh⟩
      · rw [if_neg hex] at h
        injection h with h2
        subst h2
        exact ⟨List.mem_cons_self _ _, Bool.eq_false_iff.mpr hex⟩

/-- C9: a returned reference code is the literal `ORD-`, the current
date as eight digits, a dash, and a 4-character uppercase-alphanumeric
random suffix; a returned payment code is 6 uppercase-alphanumeric
characters; and at the moment of return neither code exists in the
store — each generator skips colliding draws and returns the first
fresh one. -/
theorem code_generator_contract (s : Store) (y m d : Nat)
    (stream1 stream2 : List String) (rcode pcode : String)
    (h1 : generate_order_code s (formatYYYYMMDD y m d) stream1 = some rcode)
    (hs1 : ∀ suf ∈ stream1, suf.length = 4 ∧ suf.data.all isUpperAlnumChar = true)
    (h2 : generate_payment_code s stream2 = some pcode)
    (hs2 : ∀ c ∈ stream2, c.length = 6 ∧ c.data.all isUpperAlnumChar = true) :
    (∃ suffix, suffix.length = 4 ∧ suffix.data.all isUpperAlnumChar = true ∧
        rcode = "ORD-" ++ formatYYYYMMDD y m d ++ "-" ++ suffix) ∧
    (formatYYYYMMDD y m d).length = 8 ∧
    (formatYYYYMMDD y m d).data.all isDigitChar = true ∧
    referenceCodeExists s rcode = false ∧
    pcode.length = 6 ∧ pcode.data.all isUpperAlnumChar = true ∧
    paymentCodeExists s pcode = false := by
  obtain ⟨suffix, hmem, heq, hfresh⟩ := generate_order_code_mem s _ stream1 rcode h1
  obtain ⟨hpmem, hpfresh⟩ := generate_payment_code_mem s stream2 pcode h2
  obtain ⟨hlen, halnum⟩ := hs1 suffix hmem
  obtain ⟨hplen, hpalnum⟩ := hs2 pcode hpmem
  exact ⟨⟨suffix, hlen, halnum, heq⟩, formatYYYYMMDD_length y m d,
    formatYYYYMMDD_digits y m d, hfresh, hplen, hpalnum, hpfresh⟩

/-- Witness for C9 on a store already holding both first draws, so both
generators retry once before returning a fresh code. -/
theorem code_generator_contract_witness :
    generate_order_code sampleStore (formatYYYYMMDD 2026 1 1) ["AAAA", "BBBB"] =
      some "ORD-20260101-BBBB" ∧
    (∀ suf ∈ ["AAAA", "BBBB"], suf.length = 4 ∧
        suf.data.all isUpperAlnumChar = true) ∧
    generate_payment_code sampleStore ["AAAAAA", "CCCCCC"] = some "CCCCCC" ∧
    (∀ c ∈ ["AAAAAA", "CCCCCC"], c.length = 6 ∧
        c.data.all isUpperAlnumChar = true) ∧
    ((∃ suffix, suffix.length = 4 ∧ suffix.data.all isUpperAlnumChar = true ∧
        "ORD-20260101-BBBB" = "ORD-" ++ formatYYYYMMDD 2026 1 1 ++ "-" ++ suffix) ∧
    (formatYYYYMMDD 2026 1 1).length = 8 ∧
    (formatYYYYMMDD 2026 1 1).data.all isDigitChar = true ∧
    referenceCodeExists sampleStore "ORD-20260101-BBBB" = false ∧
    ("CCCCCC" : String).length = 6 ∧
    ("CCCCCC" : String).data.all isUpperAlnumChar = true ∧
    paymentCodeExists sampleStore "CCCCCC" = false) :=
  ⟨by decide, by decide, by decide, by decide,
    code_generator_contract sampleStore 2026 1 1 ["AAAA", "BBBB"] ["AAAAAA", "CCCCCC"]
      "ORD-20260101-BBBB" "CCCCCC" (by decide) (by decide) (by decide) (by decide)⟩

/-- C10: with a configured admin address the admin notification is
addressed to that address plus the hard-coded extra recipient
scarsjason at gmail; with `ADMIN_EMAIL` unset or empty,
`send_admin_email` returns false without attempting any send, and a
finalize in local mode with valid mail credentials then reports the
admin flag false. -/
theorem admin_email_recipients (cfg : Config) (out : MailOutcome) :
    (∀ a, cfg.admin_email = some a → ¬(a = "") →
        (send_admin_email cfg out).2 =
          [Event.mailSendAttempt [.str a, .str ADMIN_EXTRA_RECIPIENT]]) ∧
    (optStrTruthy cfg.admin_email = false →
        send_admin_email cfg out = (false, [])) ∧
    (∀ (s : Store) (oid : Nat) (f ts : String) (orc : NotifyOracles) (ord : Order),
        delegatedConfigured cfg = false → localConfigured cfg = true →
        optStrTruthy cfg.admin_email = false →
        s.getOrder oid = some ord → ord.order_status = pendingStatus →
        ¬(f = "") → allowed_file f = true →
        ∃ ord2 c, (upload_payment_proof cfg s oid (some f) ts orc).1 =
            .ok (ord2, c, .bool false)) := by
  refine ⟨?_, ?_, ?_⟩
  · intro a ha hne
    have ht : optStrTruthy cfg.admin_email = true := by
      simp [ha, optStrTruthy, hne]
    unfold send_admin_email
    rw [if_pos ht]
    cases out <;> simp [ha]
  · intro hA
    unfold send_admin_email
    rw [if_neg]
    simp [hA]
  · intro s oid f ts orc ord hd hl hA hget hpend hfne hfile
    have hadm : send_admin_email cfg orc.admin = (false, []) := by
      unfold send_admin_email
      rw [if_neg]
      simp [hA]
    have hnd := notifyDispatch_local cfg (finalizeOrderOf ord f ts) orc hd hl
    rw [upload_success_eq cfg s oid f ts orc ord hget hpend hfne hfile]
    refine ⟨finalizeOrderOf ord f ts,
      .bool (send_customer_email orc.customer (finalizeOrderOf ord f ts).email).1, ?_⟩
    rw [hnd, hadm]

/-- Witness for C10: a local-mode configuration without an admin
address, finalizing a concrete pending order. -/
theorem admin_email_recipients_witness :
    optStrTruthy cfgLocalNoAdmin.admin_email = false ∧
    delegatedConfigured cfgLocalNoAdmin = false ∧
    localConfigured cfgLocalNoAdmin = true ∧
    send_admin_email cfgLocalNoAdmin .sent = (false, []) ∧
    (∃ ord2 c,
      (upload_payment_proof cfgLocalNoAdmin sampleStore 1 (some "p.png") "t"
        sampleOracles).1 = .ok (ord2, c, .bool false)) ∧
    (send_admin_email cfgLocal .sent).2 =
      [Event.mailSendAttempt
        [.str "admin@example.com", .str ADMIN_EXTRA_RECIPIENT]] :=
  ⟨rfl, rfl, rfl,
    (admin_email_recipients cfgLocalNoAdmin .sent).2.1 rfl,
    (admin_email_recipients cfgLocalNoAdmin .sent).2.2 sampleStore 1 "p.png" "t"
      sampleOracles sampleOrder rfl rfl rfl rfl rfl (by decide) (by decide),
    (admin_email_recipients cfgLocal .sent).1 "admin@example.com" rfl (by decide)⟩

end Yoghurt
